import Mathlib

/-
Shallow embedding of `fs/onedrivefs/onedrivefs.py` (the OneDrive adapter for
the generic `fs` filesystem interface).  Remote state is modelled as a map
from paths to items; remote mutations are recorded as an explicit effect
trace.  Python exceptions are modelled with `Except`.
-/

namespace OneDrive

/-- Opaque error raised by the onedrivesdk client (`OneDriveError`). -/
inductive ODError
  | mk
deriving DecidableEq, Repr

/-- Python-level exceptions that the module can raise.  `resourceNotFound`
carries the wrapped remote error when the source passes `exc=e`.
`nameError` models a Python `NameError` for an unbound module-level name. -/
inductive PyError
  | oneDriveError (e : ODError)
  | resourceNotFound (path : String) (exc : Option ODError)
  | fileExpected (path : String)
  | directoryExpected (path : String)
  | fileExists (path : String)
  | destinationExists (path : String)
  | resourceReadOnly (path : String)
  | assertionError (msg : String)
  | unsupportedOperation
  | nameError (nm : String)
deriving DecidableEq, Repr

/-- Membership of an error in the spec's error taxonomy (section 7): typed
filesystem errors, including assertion-level `UnsupportedMutation` and
`UnsupportedOperation`.  A raw remote error or a `NameError` is not in the
taxonomy. -/
def isTaxonomyError : PyError → Bool
  | PyError.oneDriveError _ => false
  | PyError.nameError _ => false
  | _ => true

/-- Python `datetime` modelled at second resolution: days since the epoch,
seconds within the day, and the timezone offset in seconds (`none` for a
naive datetime, `some 0` for UTC-aware). -/
structure PyDateTime where
  days : Int
  secs : Int
  tz : Option Int
deriving DecidableEq, Repr

/-- fs.time.epoch_to_datetime (external `fs` library): epoch seconds to a
UTC-aware datetime. -/
def epoch_to_datetime (t : Int) : PyDateTime :=
  { days := t / 86400, secs := t % 86400, tz := some 0 }

/-- datetime.replace(tzinfo=None): keep the civil fields, drop the zone. -/
def replaceTzNone (d : PyDateTime) : PyDateTime :=
  { d with tz := none }

/-- fs.time.datetime_to_epoch (external `fs` library): timegm(d.utctimetuple());
an aware datetime is converted to UTC first, a naive one is read as UTC. -/
def datetime_to_epoch (d : PyDateTime) : Int :=
  d.days * 86400 + d.secs - (d.tz.getD 0)

/-- item.file_system_info block of a remote item. -/
structure FSInfo where
  created_date_time : PyDateTime
  last_modified_date_time : PyDateTime
deriving DecidableEq, Repr

/-- item.photo facet; the values are opaque pass-through data (never
interpreted by the adapter), modelled as opaque tokens. -/
structure PhotoFacet where
  camera_make : String
  camera_model : String
  exposure_denominator : String
  exposure_numerator : String
  focal_length : String
  f_number : String
  taken_date_time : String
  iso : String
deriving DecidableEq, Repr

/-- item.location facet; opaque pass-through values. -/
structure LocationFacet where
  altitude : String
  latitude : String
  longitude : String
deriving DecidableEq, Repr

/-- item.tags facet. -/
structure TagsFacet where
  tags : List String
deriving DecidableEq, Repr

/-- A remote OneDrive item.  `folder = true` models `item.folder is not None`. -/
structure Item where
  id : String
  name : String
  folder : Bool
  size : Nat
  file_system_info : FSInfo
  photo : Option PhotoFacet
  location : Option LocationFacet
  tags : Option TagsFacet
deriving DecidableEq, Repr

/-- The `basic` namespace of an info record. -/
structure BasicNS where
  name : String
  is_dir : Bool
deriving DecidableEq, Repr

/-- The `details` namespace of an info record. -/
structure DetailsNS where
  accessed : Option Int
  created : Int
  metadata_changed : Option Int
  modified : Int
  size : Nat
  type : Nat
deriving DecidableEq, Repr

/-- The interface-facing info record built by `OneDriveFS._itemInfo`. -/
structure InfoRecord where
  basic : BasicNS
  details : DetailsNS
  photo : Option PhotoFacet
  location : Option LocationFacet
  tags : Option (List String)
deriving DecidableEq, Repr

/-- OneDriveFS._itemInfo (lines 61-102): translates a remote item into the
namespaced info record; optional facets produce optional namespaces. -/
def itemInfo (item : Item) : InfoRecord :=
  { basic := { name := item.name, is_dir := item.folder }
    details :=
      { accessed := none
        created := datetime_to_epoch item.file_system_info.created_date_time
        metadata_changed := none
        modified := datetime_to_epoch item.file_system_info.last_modified_date_time
        size := item.size
        type := if item.folder then 1 else 0 }
    photo := item.photo.map (fun ph =>
      { camera_make := ph.camera_make
        camera_model := ph.camera_model
        exposure_denominator := ph.exposure_denominator
        exposure_numerator := ph.exposure_numerator
        focal_length := ph.focal_length
        f_number := ph.f_number
        taken_date_time := ph.taken_date_time
        iso := ph.iso })
    location := item.location.map (fun loc =>
      { altitude := loc.altitude
        latitude := loc.latitude
        longitude := loc.longitude })
    tags := item.tags.map (fun t => t.tags) }

/-- Names bound at module level by the import statements of
`fs/onedrivefs/onedrivefs.py` (lines 3-17). -/
def importedNames : List String :=
  ["BytesIO", "RawIOBase", "UnsupportedOperation",
   "chain",
   "close", "remove", "write",
   "mkstemp",
   "FS",
   "DestinationExists", "DirectoryExpected", "FileExpected",
   "ResourceNotFound", "ResourceReadOnly",
   "Info",
   "Mode",
   "basename", "dirname",
   "SubFS",
   "datetime_to_epoch", "epoch_to_datetime",
   "AuthProvider", "FileSystemInfo", "Folder", "HttpProvider",
   "Item", "OneDriveClient",
   "OneDriveError",
   "temp_file"]

/-- The base-class name written in `class TempFileWrapper(IOBase):` (line 19). -/
def tempFileWrapperBase : String := "IOBase"

/-- Importing the module executes the class statement at line 19, which
evaluates the base-class name; an unbound name raises `NameError`. -/
def moduleImport : Except PyError Unit :=
  if tempFileWrapperBase ∈ importedNames then Except.ok ()
  else Except.error (PyError.nameError tempFileWrapperBase)

/-- The exception produced by `raise FileExists(path=path)` at line 177:
Python resolves the name `FileExists` at raise time; if it is unbound the
raise itself becomes a `NameError`. -/
def openbinExclusiveError (path : String) : PyError :=
  if "FileExists" ∈ importedNames then PyError.fileExists path
  else PyError.nameError "FileExists"

/-- Remote-side state seen through the onedrivesdk client: item lookup by
path, the paginated child listing of a folder path (one inner list per
server page), and the byte content served by `download` for a file path. -/
structure Remote where
  items : String → Option Item
  pages : String → List (List Item)
  content : String → List Nat

/-- fs.path.split (external `fs` library): split off the last path
component; an empty head becomes "/", a path with no slash has head "". -/
def splitPath (p : String) : String × String :=
  let cs := p.toList
  if '/' ∈ cs then
    let rev := cs.reverse
    let base := (rev.takeWhile (fun c => c ≠ '/')).reverse
    let head := ((rev.dropWhile (fun c => c ≠ '/')).drop 1).reverse
    (if head.isEmpty then "/" else String.mk head, String.mk base)
  else ("", p)

/-- fs.path.dirname (external `fs` library). -/
def dirname (p : String) : String := (splitPath p).1

/-- fs.path.basename (external `fs` library). -/
def basename (p : String) : String := (splitPath p).2

/-- fs.mode.Mode.reading (external `fs` library): "r" in mode or "+" in mode. -/
def Mode.reading (m : String) : Bool := 'r' ∈ m.toList || '+' ∈ m.toList

/-- fs.mode.Mode.writing (external `fs` library):
"w" in mode or "a" in mode or "+" in mode or "x" in mode. -/
def Mode.writing (m : String) : Bool :=
  'w' ∈ m.toList || 'a' ∈ m.toList || '+' ∈ m.toList || 'x' ∈ m.toList

/-- fs.mode.Mode.appending (external `fs` library): "a" in mode. -/
def Mode.appending (m : String) : Bool := 'a' ∈ m.toList

/-- fs.mode.Mode.exclusive (external `fs` library): "x" in mode. -/
def Mode.exclusive (m : String) : Bool := 'x' ∈ m.toList

/-- The update payload `setinfo` builds (lines 118-120): a fresh `Item()`
whose id is copied from the existing item and whose `FileSystemInfo()`
block carries only the staged timestamp fields (`none` = not set, so the
remote service leaves that field unchanged). -/
structure ItemUpdate where
  id : String
  created_date_time : Option PyDateTime
  last_modified_date_time : Option PyDateTime
deriving DecidableEq, Repr

/-- Remote mutations issued by the adapter, recorded as an effect trace. -/
inductive Effect
  | delete (path : String)
  | update (path : String) (u : ItemUpdate)
  | addChild (parent : String) (childName : String)
deriving DecidableEq, Repr

/-- FS.exists (base-class method of the external `fs` library): getinfo
succeeds, i.e. the path resolves to an item. -/
def existsP (rm : Remote) (p : String) : Bool := (rm.items p).isSome

/-- FS.isfile (base-class method of the external `fs` library): the path
resolves and is not a directory. -/
def isfileP (rm : Remote) (p : String) : Bool :=
  match rm.items p with
  | some item => !item.folder
  | none => false

/-- OneDriveFS.getinfo (lines 104-109): a failing remote lookup is
re-raised as `ResourceNotFound` carrying the remote error. -/
def getinfo (rm : Remote) (p : String) : Except PyError InfoRecord :=
  match rm.items p with
  | none => Except.error (PyError.resourceNotFound p (some ODError.mk))
  | some item => Except.ok (itemInfo item)

/-- Processing of one `(namespace, name, value)` entry of the `setinfo`
update loop (lines 122-151); the nested if-chain mirrors the source's
branch order.  Only integer epoch values reach the conversion calls, so
the value type is `Int`. -/
def stageField (u : ItemUpdate) (ns nm : String) (v : Int) : Except PyError ItemUpdate :=
  if ns = "basic" then
    if nm = "name" then
      Except.error (PyError.assertionError "Unexpected to try and change the name this way")
    else if nm = "is_dir" then
      Except.error (PyError.assertionError "Can't change an item to and from directory")
    else
      Except.error (PyError.assertionError "Aren't we guaranteed that this is all there is in the basic namespace?")
  else if ns = "details" then
    if nm = "accessed" then Except.ok u
    else if nm = "created" then
      Except.ok { u with created_date_time := some (replaceTzNone (epoch_to_datetime v)) }
    else if nm = "metadata_changed" then Except.ok u
    else if nm = "modified" then
      Except.ok { u with last_modified_date_time := some (replaceTzNone (epoch_to_datetime v)) }
    else if nm = "size" then
      Except.error (PyError.assertionError "Can't change item size")
    else if nm = "type" then
      Except.error (PyError.assertionError "Can't change an item to and from directory")
    else
      Except.error (PyError.assertionError "Aren't we guaranteed that this is all there is in the details namespace?")
  else
    Except.ok u

/-- The inner loop of `setinfo` over the fields of one namespace; a failed
assertion aborts the whole call. -/
def stageFields (u : ItemUpdate) (ns : String) : List (String × Int) → Except PyError ItemUpdate
  | [] => Except.ok u
  | (nm, v) :: rest =>
    match stageField u ns nm v with
    | Except.error e => Except.error e
    | Except.ok u2 => stageFields u2 ns rest

/-- The outer loop of `setinfo` over the namespaces of the update request. -/
def stageAll (u : ItemUpdate) : List (String × List (String × Int)) → Except PyError ItemUpdate
  | [] => Except.ok u
  | (ns, fields) :: rest =>
    match stageFields u ns fields with
    | Except.error e => Except.error e
    | Except.ok u2 => stageAll u2 rest

/-- The empty update payload built at lines 118-120 before the loop runs. -/
def initUpdate (itemId : String) : ItemUpdate :=
  { id := itemId, created_date_time := none, last_modified_date_time := none }

/-- OneDriveFS.setinfo (lines 111-152): resolve the item (ResourceNotFound
on remote failure), run the staging loop, and only if it completes issue
the single `itemRequest.update(itemUpdate)` call. -/
def setinfo (rm : Remote) (p : String) (info : List (String × List (String × Int))) :
    Except PyError Unit × List Effect :=
  match rm.items p with
  | none => (Except.error (PyError.resourceNotFound p (some ODError.mk)), [])
  | some item =>
    match stageAll (initUpdate item.id) info with
    | Except.error e => (Except.error e, [])
    | Except.ok u => (Except.ok (), [Effect.update p u])

/-- OneDriveFS.makedir (lines 157-172): resolve only the parent path
(`dirname(path)`), require it to be a folder, then add the child
unconditionally; `permissions` and `recreate` are never consulted. -/
def makedir (rm : Remote) (path : String) (permissions : Option Nat) (recreate : Bool) :
    Except PyError Unit × List Effect :=
  match rm.items (dirname path) with
  | none => (Except.error (PyError.resourceNotFound (dirname path) (some ODError.mk)), [])
  | some item =>
    if item.folder = false then
      (Except.error (PyError.directoryExpected (dirname path)), [])
    else
      (Except.ok (), [Effect.addChild (dirname path) (basename path)])

/-- What `openbin` returns when it does not raise: the in-memory read
stream holding the downloaded bytes, or the write-only temp-file stream
targeting the given upload path. -/
inductive OpenResult
  | readStream (data : List Nat)
  | writeStream (uploadPath : String)
deriving DecidableEq, Repr

/-- OneDriveFS.openbin (lines 174-196), branch for branch:
exclusive-and-exists raises the (unbound) `FileExists` name, an existing
non-file raises `FileExpected`, a reading mode downloads the whole file,
a writing mode returns the temp-file write stream, and only otherwise is
`ResourceReadOnly` reached. -/
def openbin (rm : Remote) (path : String) (mode : String) : Except PyError OpenResult :=
  if Mode.exclusive mode && existsP rm path then
    Except.error (openbinExclusiveError path)
  else if existsP rm path && !(isfileP rm path) then
    Except.error (PyError.fileExpected path)
  else if Mode.reading mode then
    match rm.items path with
    | none => Except.error (PyError.resourceNotFound path (some ODError.mk))
    | some _ => Except.ok (OpenResult.readStream (rm.content path))
  else if Mode.writing mode then
    Except.ok (OpenResult.writeStream path)
  else if Mode.appending mode then
    Except.error (PyError.resourceReadOnly path)
  else
    Except.error (PyError.resourceReadOnly path)

/-- OneDriveFS.remove (lines 198-202): the `itemRequest.get()` call is not
wrapped in a try/except, so a remote failure propagates as the raw
`OneDriveError`; a folder raises `FileExpected`; otherwise delete. -/
def remove (rm : Remote) (p : String) : Except PyError Unit × List Effect :=
  match rm.items p with
  | none => (Except.error (PyError.oneDriveError ODError.mk), [])
  | some item =>
    if item.folder then (Except.error (PyError.fileExpected p), [])
    else (Except.ok (), [Effect.delete p])

/-- OneDriveFS.removedir (lines 204-208): same shape as `remove` with the
kind test inverted; the lookup is equally unwrapped. -/
def removedir (rm : Remote) (p : String) : Except PyError Unit × List Effect :=
  match rm.items p with
  | none => (Except.error (PyError.oneDriveError ODError.mk), [])
  | some item =>
    if item.folder = false then (Except.error (PyError.directoryExpected p), [])
    else (Except.ok (), [Effect.delete p])

/-- The pagination loop of `scandir` (lines 220-227): start from the first
page's translated children and, while a next page link exists, chain the
next page's translated children onto the result. -/
def scanLoop (acc : List InfoRecord) : List (List Item) → List InfoRecord
  | [] => acc
  | pg :: rest => scanLoop (acc ++ pg.map itemInfo) rest

/-- The child sequence `scandir` produces from the server's pages. -/
def scandirList (pages : List (List Item)) : List InfoRecord :=
  match pages with
  | [] => []
  | first :: rest => scanLoop (first.map itemInfo) rest

/-- OneDriveFS.scandir (lines 211-229): resolve the path (ResourceNotFound
on remote failure), require a folder, then run the pagination loop. -/
def scandir (rm : Remote) (p : String) : Except PyError (List InfoRecord) :=
  match rm.items p with
  | none => Except.error (PyError.resourceNotFound p (some ODError.mk))
  | some item =>
    if item.folder = false then Except.error (PyError.directoryExpected p)
    else Except.ok (scandirList (rm.pages p))

/-- The write-stream state: the upload target given at construction and the
bytes accumulated in the local temp file. -/
structure TempFileWrapper where
  uploadPath : String
  tempContent : List Nat
deriving DecidableEq, Repr

/-- TempFileWrapper.write (lines 26-27): os.write appends to the temp file. -/
def TempFileWrapper.writeBytes (w : TempFileWrapper) (b : List Nat) : TempFileWrapper :=
  { w with tempContent := w.tempContent ++ b }

/-- TempFileWrapper.readinto (lines 29-31): always raises
`UnsupportedOperation` (the stream is write-only). -/
def TempFileWrapper.readinto (_w : TempFileWrapper) : Except PyError Unit :=
  Except.error PyError.unsupportedOperation

/-- The observable steps of `TempFileWrapper.close`. -/
inductive CloseEff
  | closeFd
  | uploadTemp (path : String) (bytes : List Nat)
  | removeTemp
  | markClosed
deriving DecidableEq, Repr

/-- TempFileWrapper.close (lines 33-38), executed statement by statement
with Python exception semantics and no try/finally: close the fd, attempt
the upload (which either returns or raises the remote error), and only on
a successful upload run `remove(self.localPath)` and `super().close()`.
`uploadOk` is the outcome of the remote upload call. -/
def closeRun (w : TempFileWrapper) (uploadOk : Bool) : Except PyError Unit × List CloseEff :=
  let t1 := [CloseEff.closeFd]
  let t2 := t1 ++ [CloseEff.uploadTemp w.uploadPath w.tempContent]
  if uploadOk then
    let t3 := t2 ++ [CloseEff.removeTemp]
    let t4 := t3 ++ [CloseEff.markClosed]
    (Except.ok (), t4)
  else
    (Except.error (PyError.oneDriveError ODError.mk), t2)

/-- Model of the remote item API applying an update payload (upstream
interface of section 6, "update-metadata"): fields present in the payload
overwrite the stored file-system-info, absent fields are left unchanged. -/
def applyPatch (u : ItemUpdate) (it : Item) : Item :=
  { it with
    file_system_info :=
      { created_date_time := u.created_date_time.getD it.file_system_info.created_date_time
        last_modified_date_time := u.last_modified_date_time.getD it.file_system_info.last_modified_date_time } }

/-- The remote state after the service applies an `update` effect at `p`. -/
def applyUpdate (rm : Remote) (p : String) (u : ItemUpdate) : Remote :=
  { rm with items := fun q => if q = p then (rm.items q).map (applyPatch u) else rm.items q }

/-- Overriding the item stored at one path (used to vary the target of a
`makedir` while keeping the rest of the remote state fixed). -/
def setItemAt (rm : Remote) (p : String) (it : Option Item) : Remote :=
  { rm with items := fun q => if q = p then it else rm.items q }

/- Concrete fixtures used to evaluate the model on small remote states. -/

/-- A naive datetime at the epoch. -/
def dt0 : PyDateTime := { days := 0, secs := 0, tz := none }

/-- A file-system-info block with both timestamps at the epoch. -/
def fsi0 : FSInfo := { created_date_time := dt0, last_modified_date_time := dt0 }

/-- A small remote file item. -/
def fileItem (nm : String) : Item :=
  { id := "id-" ++ nm, name := nm, folder := false, size := 2,
    file_system_info := fsi0, photo := none, location := none, tags := none }

/-- A small remote folder item. -/
def folderItem (nm : String) : Item :=
  { id := "id-" ++ nm, name := nm, folder := true, size := 0,
    file_system_info := fsi0, photo := none, location := none, tags := none }

/-- A remote with no items at all. -/
def rmEmpty : Remote :=
  { items := fun _ => none, pages := fun _ => [], content := fun _ => [] }

/-- A remote holding a single file at "/a". -/
def rm1 : Remote :=
  { items := fun q => if q = "/a" then some (fileItem "a") else none,
    pages := fun _ => [], content := fun _ => [] }

/-- A remote holding the root folder and an item already present at "/d". -/
def rm2 : Remote :=
  { items := fun q =>
      if q = "/" then some (folderItem "root")
      else if q = "/d" then some (fileItem "d0") else none,
    pages := fun _ => [], content := fun _ => [] }

/-- A remote holding a folder at "/docs" whose children come back in two
server pages. -/
def rm3 : Remote :=
  { items := fun q => if q = "/docs" then some (folderItem "docs") else none,
    pages := fun q => if q = "/docs" then [[fileItem "a.txt"], [folderItem "sub"]] else [],
    content := fun _ => [] }

/-- A write stream targeting "/f.txt" whose temp file holds two bytes. -/
def w0 : TempFileWrapper := { uploadPath := "/f.txt", tempContent := [104, 105] }

/-- C1: the write-then-read round trip cannot be performed on this code:
importing the module executes the class statement `class
TempFileWrapper(IOBase):` (line 19), and the base name `IOBase` is not
bound by any import (line 3 imports `RawIOBase`, which is never used), so
the import itself raises `NameError` before any stream can be opened. -/
theorem moduleImport_raises_nameError :
    moduleImport = Except.error (PyError.nameError "IOBase") ∧
    "RawIOBase" ∈ importedNames ∧ "IOBase" ∉ importedNames :=
  ⟨rfl, by decide, by decide⟩

/-- C2 counterexample: for the concrete stream `w0`, when the upload raises,
`close()` propagates the error but the local temp file is NOT removed and
the stream is not marked closed — the claim's unconditional cleanup fails. -/
theorem close_upload_failure_keeps_temp :
    closeRun w0 false =
      (Except.error (PyError.oneDriveError ODError.mk),
       [CloseEff.closeFd, CloseEff.uploadTemp "/f.txt" [104, 105]]) ∧
    CloseEff.removeTemp ∉ (closeRun w0 false).2 ∧
    CloseEff.markClosed ∉ (closeRun w0 false).2 :=
  ⟨rfl, by decide, by decide⟩

/-- C2 (amended): on a successful upload, `close()` performs exactly:
close the temp fd, upload the temp file's contents to the target path,
delete the local temp file, mark the stream closed, in that order; when
the upload raises, the error propagates out of `close()` but the local
temp file is NOT deleted and the stream is NOT marked closed (cleanup
happens only on the successful-upload path). -/
theorem close_cleanup_only_on_success (w : TempFileWrapper) :
    closeRun w true =
      (Except.ok (),
       [CloseEff.closeFd, CloseEff.uploadTemp w.uploadPath w.tempContent,
        CloseEff.removeTemp, CloseEff.markClosed]) ∧
    closeRun w false =
      (Except.error (PyError.oneDriveError ODError.mk),
       [CloseEff.closeFd, CloseEff.uploadTemp w.uploadPath w.tempContent]) ∧
    CloseEff.removeTemp ∉ (closeRun w false).2 ∧
    CloseEff.markClosed ∉ (closeRun w false).2 := by
  refine ⟨rfl, rfl, ?_, ?_⟩ <;> simp [closeRun]

/-- C3: opening a (nonexistent) path with append mode "a" does not fail
with `ResourceReadOnly`: `Mode("a").writing` is true in the `fs` library,
so the `elif mode.writing` branch (line 191) captures every append mode
before the `elif mode.appending` branch (line 193) is ever tested, and a
write stream is returned instead. -/
theorem openbin_append_returns_write_stream :
    openbin rmEmpty "/new.txt" "a" = Except.ok (OpenResult.writeStream "/new.txt") ∧
    Mode.appending "a" = true ∧ Mode.writing "a" = true :=
  ⟨rfl, by decide, by decide⟩

/-- C4: opening an existing path with exclusive-create mode "x" does not
fail with `FileExists`: line 177 raises the name `FileExists`, but the
module imports `DestinationExists` instead (line 9), so the raise itself
becomes a `NameError`. -/
theorem openbin_exclusive_raises_nameError :
    openbin rm1 "/a" "x" = Except.error (PyError.nameError "FileExists") ∧
    "DestinationExists" ∈ importedNames ∧ "FileExists" ∉ importedNames :=
  ⟨rfl, by decide, by decide⟩

/-- C5 counterexample: `remove` on a path the remote reports absent
surfaces the raw `OneDriveError` from the unwrapped `itemRequest.get()`
call (line 200), not a taxonomy error. -/
theorem remove_missing_path_raw_error :
    remove rmEmpty "/gone" = (Except.error (PyError.oneDriveError ODError.mk), []) ∧
    isTaxonomyError (PyError.oneDriveError ODError.mk) = false :=
  ⟨rfl, rfl⟩

/-- C5 (amended): remote lookup failures in `getinfo`, `setinfo`,
`scandir`, `makedir` (whose lookup is of the parent path) and the
`openbin` read path are re-raised as `ResourceNotFound` carrying the
original remote error as context, but `remove` and `removedir` do not
wrap their lookup, so there the raw `OneDriveError` escapes to the caller
(and it is not a taxonomy error). -/
theorem remote_failure_propagation (rm : Remote) (p : String) (h : rm.items p = none) :
    getinfo rm p = Except.error (PyError.resourceNotFound p (some ODError.mk)) ∧
    scandir rm p = Except.error (PyError.resourceNotFound p (some ODError.mk)) ∧
    (∀ info, setinfo rm p info = (Except.error (PyError.resourceNotFound p (some ODError.mk)), [])) ∧
    (∀ path permissions recreate, dirname path = p →
      makedir rm path permissions recreate =
        (Except.error (PyError.resourceNotFound p (some ODError.mk)), [])) ∧
    (∀ mode, Mode.reading mode = true →
      openbin rm p mode = Except.error (PyError.resourceNotFound p (some ODError.mk))) ∧
    remove rm p = (Except.error (PyError.oneDriveError ODError.mk), []) ∧
    removedir rm p = (Except.error (PyError.oneDriveError ODError.mk), []) ∧
    isTaxonomyError (PyError.oneDriveError ODError.mk) = false := by
  refine ⟨?_, ?_, fun info => ?_, fun path permissions recreate hdp => ?_,
    fun mode hm => ?_, ?_, ?_, rfl⟩
  · simp [getinfo, h]
  · simp [scandir, h]
  · simp [setinfo, h]
  · simp [makedir, hdp, h]
  · simp [openbin, existsP, h, hm]
  · simp [remove, h]
  · simp [removedir, h]

/-- Witness instantiating `remote_failure_propagation` at the empty remote
and the missing path "/gone". -/
theorem remote_failure_propagation_witness :
    rmEmpty.items "/gone" = none ∧
    (getinfo rmEmpty "/gone" = Except.error (PyError.resourceNotFound "/gone" (some ODError.mk)) ∧
     scandir rmEmpty "/gone" = Except.error (PyError.resourceNotFound "/gone" (some ODError.mk)) ∧
     (∀ info, setinfo rmEmpty "/gone" info =
       (Except.error (PyError.resourceNotFound "/gone" (some ODError.mk)), [])) ∧
     (∀ path permissions recreate, dirname path = "/gone" →
       makedir rmEmpty path permissions recreate =
         (Except.error (PyError.resourceNotFound "/gone" (some ODError.mk)), [])) ∧
     (∀ mode, Mode.reading mode = true →
       openbin rmEmpty "/gone" mode =
         Except.error (PyError.resourceNotFound "/gone" (some ODError.mk))) ∧
     remove rmEmpty "/gone" = (Except.error (PyError.oneDriveError ODError.mk), []) ∧
     removedir rmEmpty "/gone" = (Except.error (PyError.oneDriveError ODError.mk), []) ∧
     isTaxonomyError (PyError.oneDriveError ODError.mk) = false) :=
  ⟨rfl, remote_failure_propagation rmEmpty "/gone" rfl⟩

/-- C6: for an existing path, `remove` on a folder fails with
`FileExpected` and `removedir` on a file fails with `DirectoryExpected`,
and in both failure cases the effect trace is empty: no deletion request
is issued, so the remote item is unchanged. -/
theorem remove_removedir_kind_mismatch (rm : Remote) (p : String) (item : Item)
    (h : rm.items p = some item) :
    (item.folder = true → remove rm p = (Except.error (PyError.fileExpected p), [])) ∧
    (item.folder = false → removedir rm p = (Except.error (PyError.directoryExpected p), [])) := by
  constructor <;> intro hf <;> simp [remove, removedir, h, hf]

/-- Witness instantiating `remove_removedir_kind_mismatch` at the root
folder of `rm2`. -/
theorem remove_removedir_kind_mismatch_witness :
    rm2.items "/" = some (folderItem "root") ∧
    (((folderItem "root").folder = true →
        remove rm2 "/" = (Except.error (PyError.fileExpected "/"), [])) ∧
     ((folderItem "root").folder = false →
        removedir rm2 "/" = (Except.error (PyError.directoryExpected "/"), []))) :=
  ⟨rfl, remove_removedir_kind_mismatch rm2 "/" (folderItem "root") rfl⟩

/-- The four fields claim C7 singles out as hard contract violations. -/
def claimForbidden (ns nm : String) : Prop :=
  (ns = "basic" ∧ (nm = "name" ∨ nm = "is_dir")) ∨
  (ns = "details" ∧ (nm = "size" ∨ nm = "type"))

/-- Entries the spec calls silently-ignored: unrecognized namespaces, and
`details.accessed` / `details.metadata_changed`. -/
def harmlessEntry (ns nm : String) : Prop :=
  (ns ≠ "basic" ∧ ns ≠ "details") ∨
  (ns = "details" ∧ (nm = "accessed" ∨ nm = "metadata_changed"))

/-- An update request contains an entry for `ns.nm`. -/
def containsField (info : List (String × List (String × Int))) (ns nm : String) : Prop :=
  ∃ fs v, (ns, fs) ∈ info ∧ (nm, v) ∈ fs

theorem stageField_error_assert {u : ItemUpdate} {ns nm : String} {v : Int} {e : PyError}
    (h : stageField u ns nm v = Except.error e) : ∃ m, e = PyError.assertionError m := by
  unfold stageField at h
  split_ifs at h <;> injection h with h2 <;> exact ⟨_, h2.symm⟩

theorem stageFields_error_assert {ns : String} :
    ∀ (fs : List (String × Int)) (u : ItemUpdate) (e : PyError),
      stageFields u ns fs = Except.error e → ∃ m, e = PyError.assertionError m := by
  intro fs
  induction fs with
  | nil => intro u e h; simp [stageFields] at h
  | cons hd tl ih =>
    intro u e h
    rw [show hd = (hd.1, hd.2) from rfl] at h
    simp only [stageFields] at h
    cases hst : stageField u ns hd.1 hd.2 with
    | error e2 =>
      rw [hst] at h
      obtain ⟨m, hm⟩ := stageField_error_assert hst
      exact ⟨m, by simp_all⟩
    | ok u2 =>
      rw [hst] at h
      exact ih u2 e h

theorem stageAll_error_assert :
    ∀ (info : List (String × List (String × Int))) (u : ItemUpdate) (e : PyError),
      stageAll u info = Except.error e → ∃ m, e = PyError.assertionError m := by
  intro info
  induction info with
  | nil => intro u e h; simp [stageAll] at h
  | cons hd tl ih =>
    intro u e h
    rw [show hd = (hd.1, hd.2) from rfl] at h
    simp only [stageAll] at h
    cases hst : stageFields u hd.1 hd.2 with
    | error e2 =>
      rw [hst] at h
      obtain ⟨m, hm⟩ := stageFields_error_assert hd.2 u e2 hst
      exact ⟨m, by simp_all⟩
    | ok u2 =>
      rw [hst] at h
      exact ih u2 e h

theorem stageField_forbidden_asserts {ns nm : String} (hforb : claimForbidden ns nm)
    (u : ItemUpdate) (v : Int) :
    ∃ m, stageField u ns nm v = Except.error (PyError.assertionError m) := by
  rcases hforb with ⟨hns, hnm | hnm⟩ | ⟨hns, hnm | hnm⟩ <;> subst hns <;> subst hnm <;>
    exact ⟨_, rfl⟩

theorem stageFields_ok_no_forbidden {ns : String} :
    ∀ (fs : List (String × Int)) (u u2 : ItemUpdate),
      stageFields u ns fs = Except.ok u2 → ∀ nv ∈ fs, ¬ claimForbidden ns nv.1 := by
  intro fs
  induction fs with
  | nil => intro u u2 _ nv hmem; cases hmem
  | cons hd tl ih =>
    intro u u2 h nv hmem
    rw [show hd = (hd.1, hd.2) from rfl] at h
    simp only [stageFields] at h
    cases hst : stageField u ns hd.1 hd.2 with
    | error e2 => rw [hst] at h; cases h
    | ok u3 =>
      rw [hst] at h
      rcases List.mem_cons.mp hmem with heq | hmem2
      · intro hforb
        rw [heq] at hforb
        obtain ⟨m, hm⟩ := stageField_forbidden_asserts hforb u hd.2
        rw [hm] at hst
        cases hst
      · exact ih u3 u2 h nv hmem2

theorem stageAll_ok_no_forbidden :
    ∀ (info : List (String × List (String × Int))) (u u2 : ItemUpdate),
      stageAll u info = Except.ok u2 →
      ∀ nsfs ∈ info, ∀ nv ∈ nsfs.2, ¬ claimForbidden nsfs.1 nv.1 := by
  intro info
  induction info with
  | nil => intro u u2 _ nsfs hmem; cases hmem
  | cons hd tl ih =>
    intro u u2 h nsfs hmem
    rw [show hd = (hd.1, hd.2) from rfl] at h
    simp only [stageAll] at h
    cases hst : stageFields u hd.1 hd.2 with
    | error e2 => rw [hst] at h; cases h
    | ok u3 =>
      rw [hst] at h
      rcases List.mem_cons.mp hmem with heq | hmem2
      · rw [heq]
        exact stageFields_ok_no_forbidden hd.2 u u3 hst
      · exact ih u3 u2 h nsfs hmem2

theorem stageField_harmless {ns nm : String} (hh : harmlessEntry ns nm)
    (u : ItemUpdate) (v : Int) : stageField u ns nm v = Except.ok u := by
  rcases hh with ⟨h1, h2⟩ | ⟨h1, h2 | h2⟩
  · unfold stageField
    rw [if_neg h1, if_neg h2]
  · subst h1; subst h2; rfl
  · subst h1; subst h2; rfl

theorem stageFields_harmless {ns : String} :
    ∀ (fs : List (String × Int)) (u : ItemUpdate),
      (∀ nv ∈ fs, harmlessEntry ns nv.1) → stageFields u ns fs = Except.ok u := by
  intro fs
  induction fs with
  | nil => intro u _; rfl
  | cons hd tl ih =>
    intro u hall
    rw [show hd = (hd.1, hd.2) from rfl]
    simp only [stageFields]
    rw [stageField_harmless (hall hd (List.mem_cons_self hd tl)) u hd.2]
    exact ih u (fun nv hnv => hall nv (List.mem_cons_of_mem hd hnv))

theorem stageAll_harmless :
    ∀ (info : List (String × List (String × Int))) (u : ItemUpdate),
      (∀ nsfs ∈ info, ∀ nv ∈ nsfs.2, harmlessEntry nsfs.1 nv.1) →
      stageAll u info = Except.ok u := by
  intro info
  induction info with
  | nil => intro u _; rfl
  | cons hd tl ih =>
    intro u hall
    rw [show hd = (hd.1, hd.2) from rfl]
    simp only [stageAll]
    rw [stageFields_harmless hd.2 u (fun nv hnv => hall hd (List.mem_cons_self hd tl) nv hnv)]
    exact ih u (fun nsfs hmem nv hnv => hall nsfs (List.mem_cons_of_mem hd hmem) nv hnv)

/-- C7: for an existing path, an update request containing `basic.name`,
`basic.is_dir`, `details.size` or `details.type` makes `setinfo` fail with
an assertion-level error and issue no remote update (empty effect trace);
a request made up only of `details.accessed`, `details.metadata_changed`
and unrecognized-namespace entries succeeds silently, issuing the single
update call with nothing staged. -/
theorem setinfo_mutation_policy (rm : Remote) (p : String) (item : Item)
    (info : List (String × List (String × Int))) (h : rm.items p = some item) :
    ((containsField info "basic" "name" ∨ containsField info "basic" "is_dir" ∨
      containsField info "details" "size" ∨ containsField info "details" "type") →
      ∃ m, setinfo rm p info = (Except.error (PyError.assertionError m), [])) ∧
    ((∀ nsfs ∈ info, ∀ nv ∈ nsfs.2, harmlessEntry nsfs.1 nv.1) →
      setinfo rm p info = (Except.ok (), [Effect.update p (initUpdate item.id)])) := by
  constructor
  · intro hbad
    have hforb : ∃ ns nm fs v, (ns, fs) ∈ info ∧ (nm, v) ∈ fs ∧ claimForbidden ns nm := by
      rcases hbad with ⟨fs, v, h1, h2⟩ | ⟨fs, v, h1, h2⟩ | ⟨fs, v, h1, h2⟩ | ⟨fs, v, h1, h2⟩
      · exact ⟨"basic", "name", fs, v, h1, h2, Or.inl ⟨rfl, Or.inl rfl⟩⟩
      · exact ⟨"basic", "is_dir", fs, v, h1, h2, Or.inl ⟨rfl, Or.inr rfl⟩⟩
      · exact ⟨"details", "size", fs, v, h1, h2, Or.inr ⟨rfl, Or.inl rfl⟩⟩
      · exact ⟨"details", "type", fs, v, h1, h2, Or.inr ⟨rfl, Or.inr rfl⟩⟩
    obtain ⟨ns, nm, fs, v, h1, h2, h3⟩ := hforb
    cases hst : stageAll (initUpdate item.id) info with
    | ok u =>
      exact absurd h3
        (stageAll_ok_no_forbidden info (initUpdate item.id) u hst (ns, fs) h1 (nm, v) h2)
    | error e =>
      obtain ⟨m, hm⟩ := stageAll_error_assert info (initUpdate item.id) e hst
      subst hm
      exact ⟨m, by simp [setinfo, h, hst]⟩
  · intro hgood
    simp [setinfo, h, stageAll_harmless info (initUpdate item.id) hgood]

/-- Witness instantiating `setinfo_mutation_policy` at the file of `rm1`
and a request that tries to rename via `basic.name`. -/
theorem setinfo_mutation_policy_witness :
    rm1.items "/a" = some (fileItem "a") ∧
    (((containsField [("basic", [("name", (0 : Int))])] "basic" "name" ∨
       containsField [("basic", [("name", (0 : Int))])] "basic" "is_dir" ∨
       containsField [("basic", [("name", (0 : Int))])] "details" "size" ∨
       containsField [("basic", [("name", (0 : Int))])] "details" "type") →
       ∃ m, setinfo rm1 "/a" [("basic", [("name", (0 : Int))])] =
         (Except.error (PyError.assertionError m), [])) ∧
     ((∀ nsfs ∈ [("basic", [("name", (0 : Int))])], ∀ nv ∈ nsfs.2, harmlessEntry nsfs.1 nv.1) →
       setinfo rm1 "/a" [("basic", [("name", (0 : Int))])] =
         (Except.ok (), [Effect.update "/a" (initUpdate (fileItem "a").id)]))) :=
  ⟨rfl, setinfo_mutation_policy rm1 "/a" (fileItem "a") [("basic", [("name", (0 : Int))])] rfl⟩

/-- The pair of timezone conversions used by `setinfo` (write side) and
`_itemInfo` (read side) composes to the identity on epoch seconds: no
timezone drift. -/
theorem datetime_epoch_roundtrip (E : Int) :
    datetime_to_epoch (replaceTzNone (epoch_to_datetime E)) = E := by
  simp only [datetime_to_epoch, replaceTzNone, epoch_to_datetime, Option.getD]
  omega

/-- The update payload `setinfo` stages for `details.modified = E`. -/
def modUpdate (itemId : String) (E : Int) : ItemUpdate :=
  { id := itemId, created_date_time := none,
    last_modified_date_time := some (replaceTzNone (epoch_to_datetime E)) }

/-- C8: for an existing path, `setinfo` with `details.modified = E` issues
exactly one update staging the naive-UTC datetime for `E`, and once the
remote applies that patch, `getinfo` reports `modified = E`: the
epoch-to-datetime conversion on write and the datetime-to-epoch conversion
on read compose to the identity with no timezone drift. -/
theorem setinfo_modified_roundtrip (rm : Remote) (p : String) (item : Item) (E : Int)
    (h : rm.items p = some item) :
    setinfo rm p [("details", [("modified", E)])] =
      (Except.ok (), [Effect.update p (modUpdate item.id E)]) ∧
    (getinfo (applyUpdate rm p (modUpdate item.id E)) p).map (fun i => i.details.modified) =
      Except.ok E := by
  constructor
  · simp only [setinfo]
    rw [h]
    rfl
  · have hit : (applyUpdate rm p (modUpdate item.id E)).items p =
        some (applyPatch (modUpdate item.id E) item) := by
      simp [applyUpdate, h]
    simp only [getinfo]
    rw [hit]
    simp [Except.map, itemInfo, applyPatch, modUpdate, datetime_epoch_roundtrip]

/-- Witness instantiating `setinfo_modified_roundtrip` at the file of
`rm1` and epoch value 1234567. -/
theorem setinfo_modified_roundtrip_witness :
    rm1.items "/a" = some (fileItem "a") ∧
    (setinfo rm1 "/a" [("details", [("modified", (1234567 : Int))])] =
      (Except.ok (), [Effect.update "/a" (modUpdate (fileItem "a").id 1234567)]) ∧
     (getinfo (applyUpdate rm1 "/a" (modUpdate (fileItem "a").id 1234567)) "/a").map
        (fun i => i.details.modified) = Except.ok 1234567) :=
  ⟨rfl, setinfo_modified_roundtrip rm1 "/a" (fileItem "a") 1234567 rfl⟩

theorem scanLoop_eq (pages : List (List Item)) :
    ∀ acc, scanLoop acc pages = acc ++ (pages.flatten).map itemInfo := by
  induction pages with
  | nil => intro acc; simp [scanLoop]
  | cons pg rest ih =>
    intro acc
    simp only [scanLoop, List.flatten_cons, List.map_append, ih, List.append_assoc]

theorem scandirList_eq (pages : List (List Item)) :
    scandirList pages = (pages.flatten).map itemInfo := by
  cases pages with
  | nil => rfl
  | cons first rest => simp [scandirList, scanLoop_eq, List.flatten_cons, List.map_append]

theorem itemInfo_name (it : Item) : (itemInfo it).basic.name = it.name := rfl

/-- C9: for a folder whose children come back in N server pages with
pairwise-distinct names, `scandir` yields exactly the translated records
of the concatenated pages, in page order with within-page order preserved,
with length equal to the total child count and each child's record
appearing exactly once. -/
theorem scandir_pagination (rm : Remote) (p : String) (item : Item)
    (h1 : rm.items p = some item) (h2 : item.folder = true)
    (h3 : (((rm.pages p).flatten).map Item.name).Nodup) :
    scandir rm p = Except.ok (((rm.pages p).flatten).map itemInfo) ∧
    (((rm.pages p).flatten).map itemInfo).length = ((rm.pages p).flatten).length ∧
    ∀ c ∈ (rm.pages p).flatten,
      (((rm.pages p).flatten).map itemInfo).count (itemInfo c) = 1 := by
  refine ⟨?_, List.length_map _ _, ?_⟩
  · simp [scandir, h1, h2, scandirList_eq]
  · intro c hc
    have hl : ((rm.pages p).flatten).Nodup := List.Nodup.of_map Item.name h3
    have hinj : ∀ x ∈ (rm.pages p).flatten, ∀ y ∈ (rm.pages p).flatten,
        itemInfo x = itemInfo y → x = y := by
      intro x hx y hy hxy
      refine List.inj_on_of_nodup_map h3 hx hy ?_
      rw [← itemInfo_name, ← itemInfo_name, hxy]
    have hnd : (((rm.pages p).flatten).map itemInfo).Nodup := List.Nodup.map_on hinj hl
    exact List.count_eq_one_of_mem hnd (List.mem_map_of_mem itemInfo hc)

/-- Witness instantiating `scandir_pagination` at the two-page folder
"/docs" of `rm3`. -/
theorem scandir_pagination_witness :
    rm3.items "/docs" = some (folderItem "docs") ∧ (folderItem "docs").folder = true ∧
    (((rm3.pages "/docs").flatten).map Item.name).Nodup ∧
    (scandir rm3 "/docs" = Except.ok (((rm3.pages "/docs").flatten).map itemInfo) ∧
     (((rm3.pages "/docs").flatten).map itemInfo).length = ((rm3.pages "/docs").flatten).length ∧
     ∀ c ∈ (rm3.pages "/docs").flatten,
       (((rm3.pages "/docs").flatten).map itemInfo).count (itemInfo c) = 1) :=
  ⟨rfl, rfl, by decide,
   scandir_pagination rm3 "/docs" (folderItem "docs") rfl rfl (by decide)⟩

/-- C10: `makedir` resolves only the parent path: when the parent exists
and is a folder it issues exactly the child-creation request, regardless
of what (if anything) sits at the target path, and its `permissions` and
`recreate` arguments have no effect on the result. -/
theorem makedir_resolves_parent_only (rm : Remote) (path : String)
    (permissions : Option Nat) (recreate : Bool) (parent : Item)
    (h1 : rm.items (dirname path) = some parent) (h2 : parent.folder = true) :
    makedir rm path permissions recreate =
      (Except.ok (), [Effect.addChild (dirname path) (basename path)]) ∧
    (∀ permissions2 recreate2,
      makedir rm path permissions2 recreate2 = makedir rm path permissions recreate) ∧
    (∀ tgt, dirname path ≠ path →
      makedir (setItemAt rm path tgt) path permissions recreate =
        makedir rm path permissions recreate) := by
  refine ⟨?_, fun permissions2 recreate2 => rfl, ?_⟩
  · simp [makedir, h1, h2]
  · intro tgt hne
    have hsame : (setItemAt rm path tgt).items (dirname path) = rm.items (dirname path) := by
      simp [setItemAt, hne]
    simp only [makedir, hsame]

/-- Witness instantiating `makedir_resolves_parent_only` at `rm2`, whose
root is a folder and whose target path "/d" is already occupied. -/
theorem makedir_resolves_parent_only_witness :
    rm2.items (dirname "/d") = some (folderItem "root") ∧
    (folderItem "root").folder = true ∧ rm2.items "/d" = some (fileItem "d0") ∧
    (makedir rm2 "/d" none false =
      (Except.ok (), [Effect.addChild (dirname "/d") (basename "/d")]) ∧
     (∀ permissions2 recreate2,
       makedir rm2 "/d" permissions2 recreate2 = makedir rm2 "/d" none false) ∧
     (∀ tgt, dirname "/d" ≠ "/d" →
       makedir (setItemAt rm2 "/d" tgt) "/d" none false = makedir rm2 "/d" none false)) :=
  ⟨rfl, rfl, rfl,
   makedir_resolves_parent_only rm2 "/d" none false (folderItem "root") rfl rfl⟩

end OneDrive
